import Mathlib

set_option maxHeartbeats 1000000

namespace gd

/-- Byte-addressed memory: one byte value per address. -/
abbrev Mem := Nat → Nat

def memZero : Mem := fun _ => 0

/-- GraphicsDevice::Error (GraphicsDevice.h). -/
inductive Error
  | OK
  | Unknown
  | NotAvailable
  | InvalidParameter
  | OutOfMemory
  | InaccesibleFromCPU
deriving DecidableEq, Repr

/-- GraphicsDevice::TextureFormat (GraphicsDevice.h): the named format values. -/
inductive TextureFormat
  | Unknown
  | Rf16
  | RGf16
  | RGBAf16
  | Rf32
  | RGf32
  | RGBAf32
  | Ru8
  | RGu8
  | RGBAu8
  | Ri16
  | RGi16
  | RGBAi16
  | Ri32
  | RGi32
  | RGBAi32
  | I420
deriving DecidableEq, Repr

/-- GraphicsDevice::BufferType (GraphicsDevice.h). -/
inductive BufferType
  | Index
  | Vertex
  | Constant
  | Compute
deriving DecidableEq, Repr

/-- Backend/driver calls observable in an execution trace.  `mapOp`/`unmapOp`
stand for D3D11 Map/Unmap and D3D9 LockRect/UnlockRect; `copyRes` stands for
D3D11 CopyResource and D3D9 GetRenderTargetData (the GPU-side
resource-to-resource copy); `updateSub` stands for UpdateSubresource /
UpdateSurface. -/
inductive Ev
  | copyRes
  | sync
  | mapOp
  | unmapOp
  | updateSub
deriving DecidableEq, Repr

/-- Modelled from the spec: `GetTexelSize` is declared in GraphicsDevice.h but
the TexelFormat catalog implementing it is outside the given backend sources.
Per the spec, the size is element count times the per-component byte width
(e.g. Rf32 -> 4, RGBAf16 -> 8, RGBAu8 -> 4) and 0 for unrecognized formats. -/
def GetTexelSize : TextureFormat → Nat
  | .Rf16 => 2
  | .RGf16 => 4
  | .RGBAf16 => 8
  | .Rf32 => 4
  | .RGf32 => 8
  | .RGBAf32 => 16
  | .Ru8 => 1
  | .RGu8 => 2
  | .RGBAu8 => 4
  | .Ri16 => 2
  | .RGi16 => 4
  | .RGBAi16 => 8
  | .Ri32 => 4
  | .RGi32 => 8
  | .RGBAi32 => 16
  | _ => 0

/-- GetInternalFormatD3D11 (GraphicsDeviceD3D11.cpp): DXGI_FORMAT numeric
values; DXGI_FORMAT_UNKNOWN = 0 for the formats the switch does not cover. -/
def GetInternalFormatD3D11 : TextureFormat → Nat
  | .RGBAu8 => 27
  | .RGBAf16 => 10
  | .RGf16 => 34
  | .Rf16 => 54
  | .RGBAf32 => 2
  | .RGf32 => 16
  | .Rf32 => 41
  | .RGBAi32 => 4
  | .RGi32 => 18
  | .Ri32 => 43
  | _ => 0

/-- GetInternalFormatD3D9 (GraphicsDeviceD3D9.cpp): D3DFORMAT numeric values;
D3DFMT_UNKNOWN = 0 for the formats the switch does not cover. -/
def GetInternalFormatD3D9 : TextureFormat → Nat
  | .RGBAu8 => 21
  | .RGBAf16 => 113
  | .RGf16 => 112
  | .Rf16 => 111
  | .RGBAf32 => 116
  | .RGf32 => 115
  | .Rf32 => 114
  | _ => 0

/-- Sign extension of a 32-bit int bit pattern to a 64-bit unsigned pattern,
as performed by the C++ conversion of `int` to `uint64_t`. -/
def int32ToUInt64 (v : Nat) : Nat :=
  if v % 4294967296 < 2147483648 then v % 4294967296
  else v % 4294967296 + 18446744073709551616 - 4294967296

/-- The staging-texture cache key of both backends:
`width + (height << 16) + ((uint64_t)internal_format << 32)` where the first
two summands are computed in 32-bit int arithmetic and then widened. -/
def hashStaging (width height internalFormat : Nat) : Nat :=
  (int32ToUInt64 ((width + height * 65536) % 4294967296)
    + internalFormat * 4294967296) % 18446744073709551616

/-- Outcome of one staging-texture cache access: the keys cached afterwards,
whether the clear-all fired, whether the lookup hit, whether a new staging
texture was created. -/
structure CacheStep where
  cache : List Nat
  cleared : Bool
  hit : Bool
  created : Bool
deriving Repr

/-- The shared find-then-create tail of both staging caches. -/
def stagingLookup (cache1 : List Nat) (key : Nat) (createOk cleared : Bool) :
    CacheStep :=
  if key ∈ cache1 then ⟨cache1, cleared, true, false⟩
  else if createOk then ⟨key :: cache1, cleared, false, true⟩
  else ⟨cache1, cleared, false, false⟩

/-- GraphicsDeviceD3D11::getStagingTexture, cache behaviour: clear-all when at
least 32 entries are held, then hash, lookup, and insert on successful
creation.  `createOk` models the HRESULT of CreateTexture2D. -/
def d3d11GetStagingTexture (cache : List Nat) (width height : Nat)
    (fmt : TextureFormat) (createOk : Bool) : CacheStep :=
  if 32 ≤ cache.length then
    stagingLookup [] (hashStaging width height (GetInternalFormatD3D11 fmt))
      createOk true
  else
    stagingLookup cache (hashStaging width height (GetInternalFormatD3D11 fmt))
      createOk false

/-- GraphicsDeviceD3D9::findOrCreateStagingTexture, cache behaviour: clear-all
when at least 32 entries are held, then the D3DFMT_UNKNOWN early return, then
hash, lookup, and insert on successful creation. -/
def d3d9FindOrCreateStagingTexture (cache : List Nat) (width height : Nat)
    (fmt : TextureFormat) (createOk : Bool) : CacheStep :=
  if 32 ≤ cache.length then
    if GetInternalFormatD3D9 fmt = 0 then ⟨[], true, false, false⟩
    else
      stagingLookup [] (hashStaging width height (GetInternalFormatD3D9 fmt))
        createOk true
  else
    if GetInternalFormatD3D9 fmt = 0 then ⟨cache, false, false, false⟩
    else
      stagingLookup cache (hashStaging width height (GetInternalFormatD3D9 fmt))
        createOk false

/-- memcpy(dst + dstOff, src + srcOff, n). -/
def memcpy (dst src : Mem) (dstOff srcOff n : Nat) : Mem :=
  fun i => if dstOff ≤ i ∧ i < dstOff + n then src (srcOff + (i - dstOff)) else dst i

/-- The row-by-row copy loop of readTexture/writeTexture: each iteration
copies `dstPitch` bytes, then advances the destination by `dstPitch` and the
source by `srcPitch`. -/
def copyRows (dst src : Mem) (dstOff srcOff dstPitch srcPitch : Nat) :
    Nat → Mem
  | 0 => dst
  | h + 1 =>
    copyRows (memcpy dst src dstOff srcOff dstPitch) src (dstOff + dstPitch)
      (srcOff + srcPitch) dstPitch srcPitch h

/-- The pitch-aware copy used by both texture transfer directions: one bulk
memcpy when the two pitches agree, otherwise the row loop. -/
def pitchCopy (dst src : Mem) (dstPitch srcPitch bulkSize height : Nat) : Mem :=
  if dstPitch = srcPitch then memcpy dst src 0 0 bulkSize
  else copyRows dst src 0 0 dstPitch srcPitch height

/-- Driver model: a texture's logical content is a tight row-major byte array;
a GPU-side resource-to-resource copy (CopyResource / GetRenderTargetData /
UpdateSurface) re-lays rows of `rowBytes` bytes from source pitch `srcPitch`
to destination pitch `dstPitch`; padding bytes are unspecified, fixed to 0. -/
def copyResourceTex (src : Mem) (srcPitch dstPitch rowBytes : Nat) : Mem :=
  fun i =>
    if i % dstPitch < rowBytes then src (i / dstPitch * srcPitch + i % dstPitch)
    else 0

/-- Driver model of ID3D11DeviceContext::UpdateSubresource on the box
[0,width)x[0,rows): destination rows of `rowBytes` bytes at pitch `texPitch`
are taken from the source at pitch `srcPitch`. -/
def updateSubresource (texMem : Mem) (texPitch : Nat) (src : Mem)
    (srcPitch rowBytes rows : Nat) : Mem :=
  fun i =>
    if i / texPitch < rows ∧ i % texPitch < rowBytes then
      src (i / texPitch * srcPitch + i % texPitch)
    else texMem i

/-- ceildiv from gdInternal, as used by D3D11 writeTexture. -/
def ceildiv (a b : Nat) : Nat := (a + b - 1) / b

/-- std::swap(data[i].r, data[i].b) on 4-byte texels (GraphicsDeviceD3D9.cpp,
BGRA_RGBA_conversion body). -/
def swapTexelRB (m : Mem) (i : Nat) : Mem :=
  fun j =>
    if j = 4 * i then m (4 * i + 2)
    else if j = 4 * i + 2 then m (4 * i) else m j

/-- BGRA_RGBA_conversion (GraphicsDeviceD3D9.cpp): in-place red/blue swap of
the first `n` texels. -/
def bgraRgbaConversion (m : Mem) : Nat → Mem
  | 0 => m
  | n + 1 => swapTexelRB (bgraRgbaConversion m n) n

/-- One iteration of copy_with_BGRA_RGBA_conversion: d.r = s.b; d.g = s.g;
d.b = s.r; d.a = s.a for texel `i`. -/
def copyTexelSwapped (dst src : Mem) (i : Nat) : Mem :=
  fun j =>
    if j = 4 * i then src (4 * i + 2)
    else if j = 4 * i + 1 then src (4 * i + 1)
    else if j = 4 * i + 2 then src (4 * i)
    else if j = 4 * i + 3 then src (4 * i + 3)
    else dst j

/-- copy_with_BGRA_RGBA_conversion (GraphicsDeviceD3D9.cpp): copies the first
`n` texels exchanging the red and blue channels. -/
def copyWithBgraRgbaConversion (dst src : Mem) : Nat → Mem
  | 0 => dst
  | n + 1 => copyTexelSwapped (copyWithBgraRgbaConversion dst src n) src n

/-- The red/blue byte-index permutation within one 4-byte texel. -/
def swapRBIdx (r : Nat) : Nat :=
  if r = 0 then 2 else if r = 2 then 0 else r

/-- A D3D11 texture resource as seen by the engine: its mapped byte memory,
the RowPitch the driver reports for it, and its CPU access flags. -/
structure Tex where
  mem : Mem
  pitch : Nat
  cpuRead : Bool
  cpuWrite : Bool

/-- A D3D11 buffer resource: linear memory plus CPU access flags. -/
structure Buf where
  mem : Mem
  cpuRead : Bool
  cpuWrite : Bool

/-- Driver environment of one D3D11 call: whether Map succeeds, the
(undefined) content a WRITE_DISCARD map exposes, whether staging-resource
creation succeeds, and the RowPitch of the staging texture. -/
structure Env11 where
  mapOk : Bool
  stale : Mem
  createOk : Bool
  stagingPitch : Nat

/-- Result of the proc_read lambda in D3D11 readTexture. -/
structure ProcRes where
  err : Error
  dst : Option Mem
  derefNull : Bool
  evs : List Ev

/-- The proc_read lambda of GraphicsDeviceD3D11::readTexture: Map, then the
pitch-aware copy into the caller's buffer, then Unmap; Map failure sets the
captured `ret` to Unknown.  A `none` destination records the null-pointer
dereference the memcpy would perform. -/
def procReadTex (mapOk : Bool) (dst : Option Mem) (dstSize : Nat)
    (texMem : Mem) (texPitch width height : Nat) (fmt : TextureFormat) :
    ProcRes :=
  if mapOk then
    match dst with
    | some d =>
      ⟨Error.OK,
        some (pitchCopy d texMem (width * GetTexelSize fmt) texPitch dstSize
          height),
        false, [Ev.mapOp, Ev.unmapOp]⟩
    | none => ⟨Error.OK, none, true, [Ev.mapOp, Ev.unmapOp]⟩
  else ⟨Error.Unknown, dst, false, [Ev.mapOp]⟩

/-- Result of a D3D11 readTexture call. -/
structure ReadTexRes where
  err : Error
  dst : Option Mem
  cache : List Nat
  evs : List Ev
  derefNull : Bool

/-- GraphicsDeviceD3D11::readTexture.  `ctxNull` models `m_context == nullptr`;
pointer arguments are `Option`s with `none` as nullptr. -/
def d3d11ReadTexture (ctxNull : Bool) (dst : Option Mem) (dstSize : Nat)
    (srcTex : Option Tex) (width height : Nat) (fmt : TextureFormat)
    (cache : List Nat) (env : Env11) : ReadTexRes :=
  if ctxNull then ⟨Error.InvalidParameter, dst, cache, [], false⟩
  else
    match srcTex with
    | none => ⟨Error.InvalidParameter, dst, cache, [], false⟩
    | some tex =>
      if tex.cpuRead then
        let r := procReadTex env.mapOk dst dstSize tex.mem tex.pitch width
          height fmt
        ⟨r.err, r.dst, cache, r.evs, r.derefNull⟩
      else
        let step := d3d11GetStagingTexture cache width height fmt env.createOk
        if step.hit || step.created then
          let stMem := copyResourceTex tex.mem tex.pitch env.stagingPitch
            (width * GetTexelSize fmt)
          let r := procReadTex env.mapOk dst dstSize stMem env.stagingPitch
            width height fmt
          ⟨r.err, r.dst, step.cache, Ev.copyRes :: Ev.sync :: r.evs,
            r.derefNull⟩
        else
          ⟨Error.Unknown, dst, step.cache, [Ev.copyRes, Ev.sync, Ev.mapOp],
            false⟩

/-- Result of a D3D11 writeTexture call.  `numPixels` records the value of
the unchecked division `src_size / GetTexelSize(format)` when the execution
reaches it. -/
structure WriteTexRes where
  err : Error
  tex : Option Tex
  evs : List Ev
  derefNull : Bool
  numPixels : Option Nat

/-- GraphicsDeviceD3D11::writeTexture. -/
def d3d11WriteTexture (dstTex : Option Tex) (width height : Nat)
    (fmt : TextureFormat) (src : Option Mem) (srcSize : Nat) (env : Env11) :
    WriteTexRes :=
  match dstTex, src with
  | none, _ => ⟨Error.InvalidParameter, dstTex, [], false, none⟩
  | _, none => ⟨Error.InvalidParameter, dstTex, [], false, none⟩
  | some tex, some srcMem =>
    let psize := GetTexelSize fmt
    let pitch := psize * width
    let numPixels := srcSize / psize
    if tex.cpuWrite then
      if env.mapOk then
        let newMem := pitchCopy env.stale srcMem tex.pitch
          (width * GetTexelSize fmt) srcSize height
        ⟨Error.OK, some { tex with mem := newMem }, [Ev.mapOp, Ev.unmapOp],
          false, some numPixels⟩
      else
        ⟨Error.OK, some tex, [Ev.mapOp], false, some numPixels⟩
    else
      let rows := ceildiv numPixels width
      let newMem := updateSubresource tex.mem tex.pitch srcMem pitch
        (width * psize) rows
      ⟨Error.OK, some { tex with mem := newMem }, [Ev.updateSub], false,
        some numPixels⟩

/-- Result of a D3D11 buffer read. -/
structure ReadBufRes where
  err : Error
  dst : Option Mem
  evs : List Ev
  derefNull : Bool

/-- The proc_read lambda of GraphicsDeviceD3D11::readBuffer. -/
def procReadBuf (mapOk : Bool) (dst : Option Mem) (srcMem : Mem)
    (size : Nat) (preEvs : List Ev) : ReadBufRes :=
  if mapOk then
    match dst with
    | some d =>
      ⟨Error.OK, some (memcpy d srcMem 0 0 size), preEvs ++ [Ev.mapOp, Ev.unmapOp],
        false⟩
    | none => ⟨Error.OK, none, preEvs ++ [Ev.mapOp, Ev.unmapOp], true⟩
  else ⟨Error.Unknown, dst, preEvs ++ [Ev.mapOp], false⟩

/-- GraphicsDeviceD3D11::readBuffer.  Staging-buffer availability
(getStagingBuffer's CreateBuffer) is modelled by `env.createOk`. -/
def d3d11ReadBuffer (dst : Option Mem) (srcBuf : Option Buf) (readSize : Nat)
    (type : BufferType) (env : Env11) : ReadBufRes :=
  if readSize = 0 then ⟨Error.OK, dst, [], false⟩
  else
    match dst, srcBuf with
    | none, _ => ⟨Error.InvalidParameter, dst, [], false⟩
    | _, none => ⟨Error.InvalidParameter, dst, [], false⟩
    | some _, some buf =>
      if buf.cpuRead then procReadBuf env.mapOk dst buf.mem readSize []
      else if env.createOk then
        procReadBuf env.mapOk dst buf.mem readSize [Ev.copyRes, Ev.sync]
      else
        ⟨Error.Unknown, dst, [Ev.copyRes, Ev.sync, Ev.mapOp], false⟩

/-- Result of a D3D11 buffer write. -/
structure WriteBufRes where
  err : Error
  buf : Option Buf
  evs : List Ev
  derefNull : Bool

/-- GraphicsDeviceD3D11::writeBuffer. -/
def d3d11WriteBuffer (dstBuf : Option Buf) (src : Option Mem)
    (writeSize : Nat) (type : BufferType) (env : Env11) : WriteBufRes :=
  if writeSize = 0 then ⟨Error.OK, dstBuf, [], false⟩
  else
    match dstBuf, src with
    | none, _ => ⟨Error.InvalidParameter, dstBuf, [], false⟩
    | _, none => ⟨Error.InvalidParameter, dstBuf, [], false⟩
    | some buf, some srcMem =>
      if buf.cpuWrite then
        if env.mapOk then
          ⟨Error.OK, some { buf with mem := memcpy env.stale srcMem 0 0 writeSize },
            [Ev.mapOp, Ev.unmapOp], false⟩
        else ⟨Error.Unknown, dstBuf, [Ev.mapOp], false⟩
      else
        ⟨Error.OK, some { buf with mem := memcpy buf.mem srcMem 0 0 writeSize },
          [Ev.updateSub], false⟩

/-- Driver environment of one D3D9 call: HRESULTs of
CreateOffscreenPlainSurface, GetSurfaceLevel, GetRenderTargetData, LockRect
and UpdateSurface, the Pitch LockRect reports for the staging surface, the
(undefined) content a DISCARD lock exposes, and the pitch of the destination
texture's own surface. -/
structure Env9 where
  createOk : Bool
  surfaceOk : Bool
  getRTOk : Bool
  lockOk : Bool
  updateOk : Bool
  lockPitch : Nat
  stale : Mem
  texPitch : Nat

/-- Result of a D3D9 readTexture call. -/
structure D3D9ReadRes where
  err : Error
  dst : Option Mem
  cache : List Nat
  evs : List Ev
  derefNull : Bool

/-- GraphicsDeviceD3D9::readTexture.  Note the source ordering: sync() is
called before GetRenderTargetData, and LockRect follows it with no further
sync.  A `none` texture records the dereference GetSurfaceLevel would
perform; a `none` output buffer records the dereference of the copy. -/
def d3d9ReadTexture (dst : Option Mem) (bufsize : Nat) (tex : Option Tex)
    (width height : Nat) (fmt : TextureFormat) (cache : List Nat)
    (env : Env9) : D3D9ReadRes :=
  let step := d3d9FindOrCreateStagingTexture cache width height fmt env.createOk
  if !(step.hit || step.created) then
    ⟨Error.Unknown, dst, step.cache, [], false⟩
  else
    match tex with
    | none => ⟨Error.Unknown, dst, step.cache, [], true⟩
    | some t =>
      if !env.surfaceOk then ⟨Error.Unknown, dst, step.cache, [], false⟩
      else if !env.getRTOk then
        ⟨Error.Unknown, dst, step.cache, [Ev.sync, Ev.copyRes], false⟩
      else
        let stMem := copyResourceTex t.mem env.texPitch env.lockPitch
          (width * GetTexelSize fmt)
        if !env.lockOk then
          ⟨Error.Unknown, dst, step.cache, [Ev.sync, Ev.copyRes, Ev.mapOp],
            false⟩
        else
          match dst with
          | none =>
            ⟨Error.Unknown, none, step.cache,
              [Ev.sync, Ev.copyRes, Ev.mapOp, Ev.unmapOp], true⟩
          | some d =>
            let d0 := pitchCopy d stMem (width * GetTexelSize fmt)
              env.lockPitch bufsize height
            let d1 := if fmt = TextureFormat.RGBAu8 then
                bgraRgbaConversion d0 (bufsize / 4)
              else d0
            ⟨Error.OK, some d1, step.cache,
              [Ev.sync, Ev.copyRes, Ev.mapOp, Ev.unmapOp], false⟩

/-- Result of a D3D9 writeTexture call. -/
structure D3D9WriteRes where
  err : Error
  tex : Option Tex
  cache : List Nat
  evs : List Ev
  derefNull : Bool
  numPixels : Option Nat

/-- GraphicsDeviceD3D9::writeTexture.  The division `bufsize / psize` is the
first statement, before any null or format check; on UpdateSurface success
the source assigns `ret = Error::Unknown`, so no path yields OK. -/
def d3d9WriteTexture (tex : Option Tex) (width height : Nat)
    (fmt : TextureFormat) (src : Option Mem) (bufsize : Nat)
    (cache : List Nat) (env : Env9) : D3D9WriteRes :=
  let psize := GetTexelSize fmt
  let numPixels := bufsize / psize
  let step := d3d9FindOrCreateStagingTexture cache width height fmt env.createOk
  if !(step.hit || step.created) then
    ⟨Error.Unknown, tex, step.cache, [], false, some numPixels⟩
  else
    match tex with
    | none => ⟨Error.Unknown, none, step.cache, [], true, some numPixels⟩
    | some t =>
      if !env.surfaceOk then
        ⟨Error.Unknown, some t, step.cache, [], false, some numPixels⟩
      else if !env.lockOk then
        ⟨Error.Unknown, some t, step.cache, [Ev.mapOp], false, some numPixels⟩
      else
        match src with
        | none =>
          ⟨Error.Unknown, some t, step.cache, [Ev.mapOp], true,
            some numPixels⟩
        | some s =>
          let mapped := if fmt = TextureFormat.RGBAu8 then
              copyWithBgraRgbaConversion env.stale s (bufsize / 4)
            else memcpy env.stale s 0 0 bufsize
          let newMem := copyResourceTex mapped env.lockPitch env.texPitch
            (psize * width)
          let t2 := if env.updateOk then { t with mem := newMem } else t
          ⟨Error.Unknown, some t2, step.cache,
            [Ev.mapOp, Ev.unmapOp, Ev.updateSub], false, some numPixels⟩

/-- Result of an operation that only returns an error code. -/
structure SimpleRes where
  err : Error
  evs : List Ev
  derefNull : Bool
deriving Repr

/-- GraphicsDeviceD3D9::readBuffer: unconditionally NotAvailable. -/
def d3d9ReadBuffer (dst : Option Mem) (srcBuf : Option Buf) (readSize : Nat)
    (type : BufferType) : SimpleRes :=
  ⟨Error.NotAvailable, [], false⟩

/-- GraphicsDeviceD3D9::writeBuffer: unconditionally NotAvailable. -/
def d3d9WriteBuffer (dstBuf : Option Buf) (src : Option Mem)
    (writeSize : Nat) (type : BufferType) : SimpleRes :=
  ⟨Error.NotAvailable, [], false⟩

/-- GraphicsDeviceVulkan::readBuffer: unconditionally NotAvailable. -/
def vulkanReadBuffer (dst : Option Mem) (srcBuf : Option Buf)
    (readSize : Nat) (type : BufferType) : SimpleRes :=
  ⟨Error.NotAvailable, [], false⟩

/-- GraphicsDeviceVulkan::writeBuffer: unconditionally NotAvailable. -/
def vulkanWriteBuffer (dstBuf : Option Buf) (src : Option Mem)
    (writeSize : Nat) (type : BufferType) : SimpleRes :=
  ⟨Error.NotAvailable, [], false⟩

/-- Scans a trace checking that every GPU-side resource copy is followed by a
sync before the next CPU map/lock; the Boolean accumulator is the pending
"copy issued, not yet synced" state. -/
def copySyncedBeforeMap : List Ev → Bool → Bool
  | [], _ => true
  | Ev.copyRes :: t, _ => copySyncedBeforeMap t true
  | Ev.sync :: t, _ => copySyncedBeforeMap t false
  | Ev.mapOp :: t, p => !p && copySyncedBeforeMap t p
  | Ev.unmapOp :: t, p => copySyncedBeforeMap t p
  | Ev.updateSub :: t, p => copySyncedBeforeMap t p

/-- Driver model: the logical (tight row-major) view of a pitched surface
memory — byte j of the content lives at row j / rowBytes, column
j % rowBytes, at the surface pitch. -/
def gatherRows (m : Mem) (rowBytes pitch : Nat) : Mem :=
  fun j => m (j / rowBytes * pitch + j % rowBytes)

/-- A concrete CPU-readable and CPU-writable (staging-usage) texture. -/
def texRW : Tex := ⟨memZero, 4, true, true⟩

/-- A concrete texture that is not CPU-accessible (default-usage). -/
def texGpu : Tex := ⟨memZero, 4, false, false⟩

/-- A concrete D3D11 environment in which Map fails. -/
def envMapFail11 : Env11 := ⟨false, memZero, true, 4⟩

/-- A concrete D3D9 environment in which every driver call succeeds. -/
def envOk9 : Env9 := ⟨true, true, true, true, true, 4, memZero, 4⟩

/-- A concrete 32-entry staging-texture cache state. -/
def cache32 : List Nat := List.range 32

/-- C2: the D3D9 writeTexture path returns Unknown on every execution — in
particular even when every driver call (staging creation, GetSurfaceLevel,
LockRect, UpdateSurface) succeeds — so no input makes it return OK. -/
theorem c2_d3d9_writeTexture_never_ok (tex : Option Tex) (width height : Nat)
    (fmt : TextureFormat) (src : Option Mem) (bufsize : Nat)
    (cache : List Nat) (env : Env9) :
    (d3d9WriteTexture tex width height fmt src bufsize cache env).err
      = Error.Unknown := by
  rcases tex with _ | t <;> rcases src with _ | s <;>
    simp only [d3d9WriteTexture] <;> split_ifs <;> rfl

/-- C9 (code bug): on the D3D11 backend, writeTexture on a CPU-writable
destination whose Map call fails logs the failure but still returns OK,
contradicting the spec's error-propagation policy. -/
theorem c9_d3d11_writeTexture_map_failure_returns_ok :
    (d3d11WriteTexture (some texRW) 1 1 TextureFormat.RGBAu8 (some memZero) 4
        envMapFail11).err = Error.OK ∧
    (d3d11WriteTexture (some texRW) 1 1 TextureFormat.RGBAu8 (some memZero) 4
        envMapFail11).evs = [Ev.mapOp] := by
  exact ⟨rfl, rfl⟩

/-- C10: both writeTexture implementations compute the pixel count as
`src_size / GetTexelSize(format)` with no preceding check that the format is
recognized (D3D11 performs only null checks first; D3D9 divides before any
check at all), and GetTexelSize is 0 on unrecognized formats, so for those
formats the divisor of that division is zero. -/
theorem c10_writeTexture_divides_by_texel_size :
    (∀ tex width height fmt srcMem srcSize env,
      (d3d11WriteTexture (some tex) width height fmt (some srcMem) srcSize
          env).numPixels = some (srcSize / GetTexelSize fmt)) ∧
    (∀ tex width height fmt src bufsize cache env,
      (d3d9WriteTexture tex width height fmt src bufsize cache env).numPixels
        = some (bufsize / GetTexelSize fmt)) ∧
    GetTexelSize TextureFormat.Unknown = 0 ∧
    GetTexelSize TextureFormat.I420 = 0 := by
  refine ⟨?_, ?_, rfl, rfl⟩
  · intro tex width height fmt srcMem srcSize env
    simp only [d3d11WriteTexture]
    split_ifs <;> rfl
  · intro tex width height fmt src bufsize cache env
    rcases tex with _ | t <;> rcases src with _ | s <;>
      simp only [d3d9WriteTexture] <;> split_ifs <;> rfl

/-- C4 counterexample: a zero-length readBuffer on the D3D9 backend returns
NotAvailable, not OK, so the claim fails for "every backend". -/
theorem c4_cex_d3d9_zero_read_not_ok :
    (d3d9ReadBuffer none none 0 BufferType.Vertex).err = Error.NotAvailable ∧
    Error.NotAvailable ≠ Error.OK := by
  exact ⟨rfl, by decide⟩

/-- C4 amended: on the D3D11 backend a zero-length readBuffer/writeBuffer
returns OK with no driver call and no memory touched; on the D3D9 and Vulkan
backends the buffer operations return NotAvailable (also touching nothing)
for every size, including zero. -/
theorem c4_zero_size_buffer_ops :
    (∀ dst srcBuf type env, d3d11ReadBuffer dst srcBuf 0 type env
      = ⟨Error.OK, dst, [], false⟩) ∧
    (∀ dstBuf src type env, d3d11WriteBuffer dstBuf src 0 type env
      = ⟨Error.OK, dstBuf, [], false⟩) ∧
    (∀ dst srcBuf n type, d3d9ReadBuffer dst srcBuf n type
      = ⟨Error.NotAvailable, [], false⟩) ∧
    (∀ dstBuf src n type, d3d9WriteBuffer dstBuf src n type
      = ⟨Error.NotAvailable, [], false⟩) ∧
    (∀ dst srcBuf n type, vulkanReadBuffer dst srcBuf n type
      = ⟨Error.NotAvailable, [], false⟩) ∧
    (∀ dstBuf src n type, vulkanWriteBuffer dstBuf src n type
      = ⟨Error.NotAvailable, [], false⟩) := by
  refine ⟨?_, ?_, ?_, ?_, ?_, ?_⟩ <;> intro _ _ _ _ <;> rfl

/-- The possible traces of the proc_read lambda of D3D11 readTexture. -/
theorem procReadTex_evs (mapOk : Bool) (dst : Option Mem) (dstSize : Nat)
    (texMem : Mem) (texPitch width height : Nat) (fmt : TextureFormat) :
    (procReadTex mapOk dst dstSize texMem texPitch width height fmt).evs
        = [Ev.mapOp, Ev.unmapOp] ∨
      (procReadTex mapOk dst dstSize texMem texPitch width height fmt).evs
        = [Ev.mapOp] := by
  cases mapOk
  · exact Or.inr rfl
  · cases dst
    · exact Or.inl rfl
    · exact Or.inl rfl

/-- The possible traces of the proc_read lambda of D3D11 readBuffer. -/
theorem procReadBuf_evs (mapOk : Bool) (dst : Option Mem) (srcMem : Mem)
    (size : Nat) (preEvs : List Ev) :
    (procReadBuf mapOk dst srcMem size preEvs).evs
        = preEvs ++ [Ev.mapOp, Ev.unmapOp] ∨
      (procReadBuf mapOk dst srcMem size preEvs).evs = preEvs ++ [Ev.mapOp] := by
  cases mapOk
  · exact Or.inr rfl
  · cases dst
    · exact Or.inl rfl
    · exact Or.inl rfl

/-- C7 amended: on the D3D11 backend every read (texture or buffer, mappable
or staging path) has each resource-to-resource copy followed by a sync before
the next map; on the D3D9 backend readTexture instead issues its single sync
before GetRenderTargetData, so its trace is always a prefix of
[sync, copy, lock, unlock] — the lock follows the copy with no sync
between them. -/
theorem c7_sync_after_copy_before_map :
    (∀ ctxNull dst n srcTex width height fmt cache env,
      copySyncedBeforeMap
        (d3d11ReadTexture ctxNull dst n srcTex width height fmt cache env).evs
        false = true) ∧
    (∀ dst srcBuf n type env,
      copySyncedBeforeMap (d3d11ReadBuffer dst srcBuf n type env).evs false
        = true) ∧
    (∀ dst n tex width height fmt cache env,
      (d3d9ReadTexture dst n tex width height fmt cache env).evs = [] ∨
      (d3d9ReadTexture dst n tex width height fmt cache env).evs
        = [Ev.sync, Ev.copyRes] ∨
      (d3d9ReadTexture dst n tex width height fmt cache env).evs
        = [Ev.sync, Ev.copyRes, Ev.mapOp] ∨
      (d3d9ReadTexture dst n tex width height fmt cache env).evs
        = [Ev.sync, Ev.copyRes, Ev.mapOp, Ev.unmapOp]) := by
  refine ⟨?_, ?_, ?_⟩
  · intro ctxNull dst n srcTex width height fmt cache env
    cases ctxNull
    · rcases srcTex with _ | tex
      · rfl
      · simp only [d3d11ReadTexture]
        cases h1 : tex.cpuRead
        · simp only [Bool.false_eq_true, if_false]
          split
          · rcases procReadTex_evs env.mapOk dst n
              (copyResourceTex tex.mem tex.pitch env.stagingPitch
                (width * GetTexelSize fmt))
              env.stagingPitch width height fmt with h | h <;>
              simp only [h] <;> rfl
          · rfl
        · simp only [if_true]
          rcases procReadTex_evs env.mapOk dst n tex.mem tex.pitch width
            height fmt with h | h <;> simp only [h] <;> rfl
    · rfl
  · intro dst srcBuf n type env
    simp only [d3d11ReadBuffer]
    split
    · rfl
    · rcases dst with _ | d <;> rcases srcBuf with _ | b
      · rfl
      · rfl
      · rfl
      · simp only []
        split
        · rcases procReadBuf_evs env.mapOk (some d) b.mem n [] with h | h <;>
            simp only [h] <;> rfl
        · split
          · rcases procReadBuf_evs env.mapOk (some d) b.mem n
              [Ev.copyRes, Ev.sync] with h | h <;> simp only [h] <;> rfl
          · rfl
  · intro dst n tex width height fmt cache env
    rcases tex with _ | t <;> rcases dst with _ | d <;>
      simp only [d3d9ReadTexture] <;> split_ifs <;> simp

/-- C7 counterexample: a concrete successful D3D9 readTexture execution; its
trace runs the copy (GetRenderTargetData) and then the lock with no sync in
between — the single sync precedes the copy — violating the claimed order. -/
theorem c7_cex_d3d9_sync_before_copy :
    (d3d9ReadTexture (some memZero) 4 (some texGpu) 1 1 TextureFormat.RGBAu8 []
        envOk9).evs = [Ev.sync, Ev.copyRes, Ev.mapOp, Ev.unmapOp] ∧
    (d3d9ReadTexture (some memZero) 4 (some texGpu) 1 1 TextureFormat.RGBAu8 []
        envOk9).err = Error.OK ∧
    copySyncedBeforeMap [Ev.sync, Ev.copyRes, Ev.mapOp, Ev.unmapOp] false
      = false := by
  refine ⟨by decide, by decide, rfl⟩

/-- C5: both staging-texture caches clear everything once they hold at least
32 entries, before any lookup or insertion — so the cache size never exceeds
32, and after a call made with a full cache the only key possibly present is
the one just requested (all 32 previous entries are gone and must be
recreated if requested again). -/
theorem c5_staging_cache_clear_at_32 :
    ∀ cache width height fmt createOk,
      ((d3d11GetStagingTexture cache width height fmt createOk).cache.length
        ≤ 32) ∧
      (32 ≤ cache.length →
        (d3d11GetStagingTexture cache width height fmt createOk).cleared
            = true ∧
          ∀ k ∈ (d3d11GetStagingTexture cache width height fmt createOk).cache,
            k = hashStaging width height (GetInternalFormatD3D11 fmt)) ∧
      ((d3d9FindOrCreateStagingTexture cache width height fmt
          createOk).cache.length ≤ 32) ∧
      (32 ≤ cache.length →
        (d3d9FindOrCreateStagingTexture cache width height fmt
            createOk).cleared = true ∧
          ∀ k ∈ (d3d9FindOrCreateStagingTexture cache width height fmt
              createOk).cache,
            k = hashStaging width height (GetInternalFormatD3D9 fmt)) := by
  intro cache width height fmt createOk
  refine ⟨?_, ?_, ?_, ?_⟩
  · unfold d3d11GetStagingTexture stagingLookup
    split_ifs <;> simp only [List.length_cons, List.length_nil] <;> omega
  · intro h32
    simp only [d3d11GetStagingTexture, stagingLookup, if_pos h32]
    cases createOk <;> simp
  · unfold d3d9FindOrCreateStagingTexture stagingLookup
    split_ifs <;> simp only [List.length_cons, List.length_nil] <;> omega
  · intro h32
    simp only [d3d9FindOrCreateStagingTexture, stagingLookup, if_pos h32]
    split_ifs <;> simp_all

/-- C5 witness: the clear-at-32 behaviour applied to a concrete cache holding
exactly 32 entries. -/
theorem c5_staging_cache_clear_at_32_witness :
    32 ≤ cache32.length ∧
    ((d3d11GetStagingTexture cache32 1 1 TextureFormat.RGBAu8 true).cleared
        = true ∧
      ∀ k ∈ (d3d11GetStagingTexture cache32 1 1 TextureFormat.RGBAu8
          true).cache,
        k = hashStaging 1 1 (GetInternalFormatD3D11 TextureFormat.RGBAu8)) := by
  exact ⟨by decide,
    (c5_staging_cache_clear_at_32 cache32 1 1 TextureFormat.RGBAu8 true).2.1
      (by decide)⟩

/-- C6 counterexample: the staging cache key is not injective over all
requests — width 65536 with height 0 collides with width 0, height 1 (the
width bleeds into the height bit range), for the same internal format. -/
theorem c6_cex_hash_collision :
    hashStaging 65536 0 21 = hashStaging 0 1 21 ∧
    ((65536, 0, 21) : Nat × Nat × Nat) ≠ ((0, 1, 21) : Nat × Nat × Nat) := by
  exact ⟨by decide, by decide⟩

/-- C6 amended: the cache key hash(width, height, internal_format) is
injective on requests with width < 2^16 and height < 2^16 (and any internal
format below 2^32), so within those dimensions a cache hit has exactly the
requested width, height and backend-native format. -/
theorem c6_hash_injective_below_65536 :
    ∀ w h f w' h' f', w < 65536 → h < 65536 → f < 4294967296 →
      w' < 65536 → h' < 65536 → f' < 4294967296 →
      hashStaging w h f = hashStaging w' h' f' →
      w = w' ∧ h = h' ∧ f = f' := by
  intro w h f w' h' f' hw hh hf hw' hh' hf' heq
  unfold hashStaging int32ToUInt64 at heq
  have h1 : (w + h * 65536) % 4294967296 = w + h * 65536 :=
    Nat.mod_eq_of_lt (by omega)
  have h2 : (w' + h' * 65536) % 4294967296 = w' + h' * 65536 :=
    Nat.mod_eq_of_lt (by omega)
  rw [h1, h2] at heq
  split_ifs at heq <;> omega

/-- A bulk memcpy from offset 0 returns the source byte inside the range. -/
theorem memcpy_get (dst src : Mem) (n i : Nat) (h : i < n) :
    memcpy dst src 0 0 n i = src i := by
  unfold memcpy
  rw [if_pos ⟨Nat.zero_le i, by omega⟩]
  simp

/-- memcpy leaves bytes below the destination offset unchanged. -/
theorem memcpy_lt (dst src : Mem) (dstOff srcOff n i : Nat) (h : i < dstOff) :
    memcpy dst src dstOff srcOff n i = dst i := by
  unfold memcpy
  rw [if_neg (by omega)]

/-- memcpy inside the copied range returns the corresponding source byte. -/
theorem memcpy_in (dst src : Mem) (dstOff srcOff n i : Nat)
    (h1 : dstOff ≤ i) (h2 : i < dstOff + n) :
    memcpy dst src dstOff srcOff n i = src (srcOff + (i - dstOff)) := by
  unfold memcpy
  rw [if_pos ⟨h1, h2⟩]

/-- The row loop leaves bytes below its first destination offset unchanged. -/
theorem copyRows_lt (hgt : Nat) :
    ∀ (dst src : Mem) (dstOff srcOff dp sp i : Nat), i < dstOff →
      copyRows dst src dstOff srcOff dp sp hgt i = dst i := by
  induction hgt with
  | zero => intro dst src dstOff srcOff dp sp i _; rfl
  | succ k ih =>
    intro dst src dstOff srcOff dp sp i h
    unfold copyRows
    rw [ih _ _ _ _ _ _ _ (by omega)]
    exact memcpy_lt _ _ _ _ _ _ h

/-- The row loop writes destination row r, column c (c below the copied row
length dp) with the source byte at row r of the source pitch sp. -/
theorem copyRows_get (hgt : Nat) :
    ∀ (dst src : Mem) (dstOff srcOff dp sp r c : Nat), r < hgt → c < dp →
      copyRows dst src dstOff srcOff dp sp hgt (dstOff + r * dp + c)
        = src (srcOff + r * sp + c) := by
  induction hgt with
  | zero => intro _ _ _ _ _ _ r c hr _; exact absurd hr (Nat.not_lt_zero r)
  | succ k ih =>
    intro dst src dstOff srcOff dp sp r c hr hc
    unfold copyRows
    cases r with
    | zero =>
      simp only [Nat.zero_mul, Nat.add_zero]
      rw [copyRows_lt k _ _ _ _ _ _ _ (by omega)]
      rw [memcpy_in dst src dstOff srcOff dp (dstOff + c) (by omega) (by omega)]
      congr 1
      omega
    | succ r' =>
      have harg : dstOff + (r' + 1) * dp + c = dstOff + dp + r' * dp + c := by
        ring
      rw [harg, ih _ _ _ _ _ _ r' c (by omega) hc]
      congr 1
      ring

/-- The resource-to-resource copy at destination row r, column c (row bytes
within the destination pitch) reads the source at row r of the source pitch. -/
theorem copyResourceTex_get (m : Mem) (sp dp rb r c : Nat) (hc : c < rb)
    (hrb : rb ≤ dp) :
    copyResourceTex m sp dp rb (r * dp + c) = m (r * sp + c) := by
  have hmod : (r * dp + c) % dp = c := by
    rw [Nat.mul_comm, Nat.mul_add_mod]
    exact Nat.mod_eq_of_lt (by omega)
  have hdiv : (r * dp + c) / dp = r := by
    rw [Nat.mul_comm, Nat.mul_add_div (by omega)]
    rw [Nat.div_eq_of_lt (by omega)]
    omega
  unfold copyResourceTex
  rw [hmod, hdiv, if_pos hc]

/-- With destination pitch equal to the row length, the resource copy is the
logical (gathered) view of the source surface at every address. -/
theorem copyResourceTex_eq_gather (m : Mem) (sp rb : Nat) (hrb : 0 < rb)
    (j : Nat) : copyResourceTex m sp rb rb j = gatherRows m rb sp j := by
  unfold copyResourceTex gatherRows
  rw [if_pos (Nat.mod_lt _ hrb)]

/-- UpdateSubresource at destination row r, column c inside the box reads the
source at row r of the source pitch. -/
theorem updateSubresource_get (m : Mem) (tp : Nat) (s : Mem)
    (sp rb rows r c : Nat) (hc : c < rb) (hrb : rb ≤ tp) (hr : r < rows) :
    updateSubresource m tp s sp rb rows (r * tp + c) = s (r * sp + c) := by
  have hmod : (r * tp + c) % tp = c := by
    rw [Nat.mul_comm, Nat.mul_add_mod]
    exact Nat.mod_eq_of_lt (by omega)
  have hdiv : (r * tp + c) / tp = r := by
    rw [Nat.mul_comm, Nat.mul_add_div (by omega)]
    rw [Nat.div_eq_of_lt (by omega)]
    omega
  unfold updateSubresource
  rw [hmod, hdiv, if_pos ⟨hr, hc⟩]

/-- The in-place conversion leaves bytes at or beyond texel n unchanged. -/
theorem bgraRgbaConversion_out (m : Mem) (n : Nat) :
    ∀ j, 4 * n ≤ j → bgraRgbaConversion m n j = m j := by
  induction n with
  | zero => intro j _; rfl
  | succ k ih =>
    intro j h
    simp only [bgraRgbaConversion, swapTexelRB]
    rw [if_neg (by omega), if_neg (by omega)]
    exact ih j (by omega)

/-- The red/blue permutation stays within a texel. -/
theorem swapRBIdx_lt (r : Nat) (h : r < 4) : swapRBIdx r < 4 := by
  unfold swapRBIdx
  split_ifs <;> omega

/-- The red/blue permutation is an involution on texel byte indices. -/
theorem swapRBIdx_invol (r : Nat) (h : r < 4) : swapRBIdx (swapRBIdx r) = r := by
  rcases (by omega : r = 0 ∨ r = 1 ∨ r = 2 ∨ r = 3) with h0 | h0 | h0 | h0 <;>
    subst h0 <;> rfl

/-- The in-place conversion swaps the red and blue byte of every converted
texel and keeps green and alpha. -/
theorem bgraRgbaConversion_get (m : Mem) (n : Nat) :
    ∀ q r, q < n → r < 4 →
      bgraRgbaConversion m n (4 * q + r) = m (4 * q + swapRBIdx r) := by
  induction n with
  | zero => intro q r hq _; exact absurd hq (Nat.not_lt_zero q)
  | succ k ih =>
    intro q r hq hr
    simp only [bgraRgbaConversion, swapTexelRB]
    by_cases hqk : q = k
    · subst hqk
      rcases (by omega : r = 0 ∨ r = 1 ∨ r = 2 ∨ r = 3) with h0 | h0 | h0 | h0 <;>
        subst h0
      · rw [if_pos (by omega)]
        rw [bgraRgbaConversion_out m q _ (by omega)]
        simp [swapRBIdx]
      · rw [if_neg (by omega), if_neg (by omega)]
        rw [bgraRgbaConversion_out m q _ (by omega)]
        simp [swapRBIdx]
      · rw [if_neg (by omega), if_pos rfl]
        rw [bgraRgbaConversion_out m q _ (by omega)]
        simp [swapRBIdx]
      · rw [if_neg (by omega), if_neg (by omega)]
        rw [bgraRgbaConversion_out m q _ (by omega)]
        simp [swapRBIdx]
    · rw [if_neg (by omega), if_neg (by omega)]
      exact ih q r (by omega) hr

/-- The converting copy leaves destination bytes at or beyond texel n. -/
theorem copyWithBgra_out (dst src : Mem) (n : Nat) :
    ∀ j, 4 * n ≤ j → copyWithBgraRgbaConversion dst src n j = dst j := by
  induction n with
  | zero => intro j _; rfl
  | succ k ih =>
    intro j h
    simp only [copyWithBgraRgbaConversion, copyTexelSwapped]
    rw [if_neg (by omega), if_neg (by omega), if_neg (by omega),
      if_neg (by omega)]
    exact ih j (by omega)

/-- The converting copy writes every copied texel with the source texel's
red and blue bytes exchanged. -/
theorem copyWithBgra_get (dst src : Mem) (n : Nat) :
    ∀ q r, q < n → r < 4 →
      copyWithBgraRgbaConversion dst src n (4 * q + r)
        = src (4 * q + swapRBIdx r) := by
  induction n with
  | zero => intro q r hq _; exact absurd hq (Nat.not_lt_zero q)
  | succ k ih =>
    intro q r hq hr
    simp only [copyWithBgraRgbaConversion, copyTexelSwapped]
    by_cases hqk : q = k
    · subst hqk
      rcases (by omega : r = 0 ∨ r = 1 ∨ r = 2 ∨ r = 3) with h0 | h0 | h0 | h0 <;>
        subst h0
      · rw [if_pos (by omega)]
        simp [swapRBIdx]
      · rw [if_neg (by omega), if_pos (by omega)]
        simp [swapRBIdx]
      · rw [if_neg (by omega), if_neg (by omega), if_pos (by omega)]
        simp [swapRBIdx]
      · rw [if_neg (by omega), if_neg (by omega), if_neg (by omega),
          if_pos (by omega)]
        simp [swapRBIdx]
    · rw [if_neg (by omega), if_neg (by omega), if_neg (by omega),
        if_neg (by omega)]
      exact ih q r (by omega) hr

/-- C6 witness: hash injectivity applied at concrete in-range dimensions. -/
theorem c6_hash_injective_below_65536_witness :
    (3 < 65536) ∧ (2 < 65536) ∧ (27 < 4294967296) ∧
    (3 = 3 ∧ 2 = 2 ∧ 27 = 27) := by
  exact ⟨by decide, by decide, by decide,
    c6_hash_injective_below_65536 3 2 27 3 2 27 (by decide) (by decide)
      (by decide) (by decide) (by decide) (by decide) rfl⟩

/-- D3D11 staging lookup with successful creation always yields a texture. -/
theorem d3d11GetStagingTexture_exists (cache : List Nat) (w hgt : Nat)
    (fmt : TextureFormat) :
    ((d3d11GetStagingTexture cache w hgt fmt true).hit
      || (d3d11GetStagingTexture cache w hgt fmt true).created) = true := by
  unfold d3d11GetStagingTexture stagingLookup
  split_ifs <;> simp_all

/-- D3D9 staging lookup with successful creation and a supported format
always yields a surface. -/
theorem d3d9Staging_exists (cache : List Nat) (w hgt : Nat)
    (fmt : TextureFormat) (hfmt : GetInternalFormatD3D9 fmt ≠ 0) :
    ((d3d9FindOrCreateStagingTexture cache w hgt fmt true).hit
      || (d3d9FindOrCreateStagingTexture cache w hgt fmt true).created)
      = true := by
  unfold d3d9FindOrCreateStagingTexture stagingLookup
  split_ifs <;> simp_all

/-- Writing a source of row length rb into a mapping of pitch p and reading
it back through the same mapping recovers every source byte. -/
theorem pitchCopy_roundtrip (stale src dst : Mem) (p rb sz hgt : Nat)
    (hrb : 0 < rb) (hp : rb ≤ p) (hsz : sz = rb * hgt) :
    ∀ j < sz,
      pitchCopy dst (pitchCopy stale src p rb sz hgt) rb p sz hgt j = src j := by
  intro j hj
  unfold pitchCopy
  by_cases hbe : rb = p
  · rw [if_pos hbe, if_pos hbe.symm]
    rw [memcpy_get _ _ _ _ hj, memcpy_get _ _ _ _ hj]
  · rw [if_neg hbe, if_neg (fun hh => hbe hh.symm)]
    obtain ⟨r, c, hrc, hc, hr⟩ : ∃ r c, j = r * rb + c ∧ c < rb ∧ r < hgt := by
      refine ⟨j / rb, j % rb, ?_, Nat.mod_lt _ hrb, ?_⟩
      · rw [Nat.mul_comm]
        exact (Nat.div_add_mod j rb).symm
      · rw [Nat.div_lt_iff_lt_mul hrb]
        calc j < rb * hgt := hsz ▸ hj
          _ = hgt * rb := Nat.mul_comm rb hgt
    subst hrc
    have h1 := copyRows_get hgt dst (copyRows stale src 0 0 p rb hgt) 0 0 rb p
      r c hr hc
    simp only [Nat.zero_add] at h1
    rw [h1]
    have h2 := copyRows_get hgt stale src 0 0 p rb r c hr (by omega)
    simp only [Nat.zero_add] at h2
    rw [h2]

/-- Reading through a staging texture (CopyResource then a mapped pitch-aware
copy) after an UpdateSubresource write recovers every source byte. -/
theorem staging_read_after_update (texMem src dst : Mem)
    (tp sp w ps hgt sz : Nat) (hps : 0 < ps) (hw : 0 < w)
    (htp : w * ps ≤ tp) (hsp : w * ps ≤ sp) (hsz : sz = w * hgt * ps) :
    ∀ j < sz,
      pitchCopy dst
        (copyResourceTex
          (updateSubresource texMem tp src (ps * w) (w * ps)
            (ceildiv (sz / ps) w))
          tp sp (w * ps))
        (w * ps) sp sz hgt j = src j := by
  have hrows : ceildiv (sz / ps) w = hgt := by
    rw [hsz]
    rw [show w * hgt * ps / ps = w * hgt from Nat.mul_div_cancel _ hps]
    unfold ceildiv
    rw [show w * hgt + w - 1 = w * hgt + (w - 1) from by omega]
    rw [Nat.mul_add_div hw]
    rw [Nat.div_eq_of_lt (by omega)]
    omega
  rw [hrows]
  intro j hj
  have hrb : 0 < w * ps := Nat.mul_pos hw hps
  have hszrb : sz = w * ps * hgt := by rw [hsz]; ring
  obtain ⟨r, c, hrc, hc, hr⟩ :
      ∃ r c, j = r * (w * ps) + c ∧ c < w * ps ∧ r < hgt := by
    refine ⟨j / (w * ps), j % (w * ps), ?_, Nat.mod_lt _ hrb, ?_⟩
    · rw [Nat.mul_comm]
      exact (Nat.div_add_mod j (w * ps)).symm
    · rw [Nat.div_lt_iff_lt_mul hrb]
      calc j < w * ps * hgt := hszrb ▸ hj
        _ = hgt * (w * ps) := Nat.mul_comm _ _
  subst hrc
  unfold pitchCopy
  by_cases hbe : w * ps = sp
  · rw [if_pos hbe]
    rw [memcpy_get _ _ _ _ hj]
    rw [← hbe]
    rw [copyResourceTex_get _ _ _ _ _ _ hc (Nat.le_refl _)]
    rw [updateSubresource_get _ _ _ _ _ _ _ _ hc htp hr]
    congr 1
    ring
  · rw [if_neg hbe]
    have h1 := copyRows_get hgt dst
      (copyResourceTex
        (updateSubresource texMem tp src (ps * w) (w * ps) hgt) tp sp (w * ps))
      0 0 (w * ps) sp r c hr hc
    simp only [Nat.zero_add] at h1
    rw [h1]
    rw [copyResourceTex_get _ _ _ _ _ _ hc hsp]
    rw [updateSubresource_get _ _ _ _ _ _ _ _ hc htp hr]
    congr 1
    ring

/-- Moving a staging surface into a texture (UpdateSurface) and back out
(GetRenderTargetData into an equally pitched staging surface) is the identity
on the staging memory. -/
theorem d3d9_transport (mapped : Mem) (tp rb : Nat) (hrb : 0 < rb)
    (htp : rb ≤ tp) (j : Nat) :
    copyResourceTex (copyResourceTex mapped rb tp rb) tp rb rb j = mapped j := by
  rw [copyResourceTex_eq_gather _ _ _ hrb]
  unfold gatherRows
  rw [copyResourceTex_get _ _ _ _ _ _ (Nat.mod_lt _ hrb) htp]
  congr 1
  rw [Nat.mul_comm]
  exact Nat.div_add_mod j rb

/-- Operation-level round trip on the D3D11 directly-mappable path. -/
theorem d3d11_mappable_roundtrip (texMem stale stale2 dst src : Mem)
    (p w hgt sz : Nat) (fmt : TextureFormat) (cache : List Nat)
    (cOk cOk2 : Bool) (sp sp2 : Nat)
    (hps : 0 < GetTexelSize fmt) (hw : 0 < w)
    (hpitch : w * GetTexelSize fmt ≤ p)
    (hsz : sz = w * hgt * GetTexelSize fmt) :
    ∀ j < sz,
      ((d3d11ReadTexture false (some dst) sz
          (d3d11WriteTexture (some ⟨texMem, p, true, true⟩) w hgt fmt
            (some src) sz ⟨true, stale, cOk, sp⟩).tex
          w hgt fmt cache ⟨true, stale2, cOk2, sp2⟩).dst.getD memZero) j
        = src j := by
  intro j hj
  show pitchCopy dst (pitchCopy stale src p (w * GetTexelSize fmt) sz hgt)
      (w * GetTexelSize fmt) p sz hgt j = src j
  exact pitchCopy_roundtrip stale src dst p (w * GetTexelSize fmt) sz hgt
    (Nat.mul_pos hw hps) hpitch (by rw [hsz]; ring) j hj

/-- The pitch-aware copy with equal pitches is the bulk memcpy branch. -/
theorem pitchCopy_self (dst srcM : Mem) (pp sz hgt : Nat) :
    pitchCopy dst srcM pp pp sz hgt = memcpy dst srcM 0 0 sz := by
  unfold pitchCopy
  rw [if_pos rfl]

/-- The destination buffer produced by a D3D11 staging-path readTexture in a
fully successful environment. -/
theorem d3d11_read_staging_dst (M dst stale2 : Mem) (tp w hgt sz sp : Nat)
    (fmt : TextureFormat) (cache : List Nat) :
    (d3d11ReadTexture false (some dst) sz (some ⟨M, tp, false, false⟩) w hgt
        fmt cache ⟨true, stale2, true, sp⟩).dst
      = some (pitchCopy dst
          (copyResourceTex M tp sp (w * GetTexelSize fmt))
          (w * GetTexelSize fmt) sp sz hgt) := by
  have hex := d3d11GetStagingTexture_exists cache w hgt fmt
  simp only [d3d11ReadTexture, procReadTex, hex, if_true]
  rfl

/-- Operation-level round trip on the D3D11 staging path: UpdateSubresource
write (destination not CPU-writable) followed by a CopyResource-staged read
(destination not CPU-readable). -/
theorem d3d11_staging_roundtrip (texMem stale stale2 dst src : Mem)
    (tp sp sp1 w hgt sz : Nat) (fmt : TextureFormat) (cache : List Nat)
    (mOk cOkW : Bool)
    (hps : 0 < GetTexelSize fmt) (hw : 0 < w)
    (htp : w * GetTexelSize fmt ≤ tp) (hsp : w * GetTexelSize fmt ≤ sp)
    (hsz : sz = w * hgt * GetTexelSize fmt) :
    ∀ j < sz,
      ((d3d11ReadTexture false (some dst) sz
          (d3d11WriteTexture (some ⟨texMem, tp, false, false⟩) w hgt fmt
            (some src) sz ⟨mOk, stale, cOkW, sp1⟩).tex
          w hgt fmt cache ⟨true, stale2, true, sp⟩).dst.getD memZero) j
        = src j := by
  intro j hj
  have hwtex : (d3d11WriteTexture (some ⟨texMem, tp, false, false⟩) w hgt fmt
      (some src) sz ⟨mOk, stale, cOkW, sp1⟩).tex
      = some ⟨updateSubresource texMem tp src (GetTexelSize fmt * w)
          (w * GetTexelSize fmt) (ceildiv (sz / GetTexelSize fmt) w), tp,
          false, false⟩ := rfl
  rw [hwtex, d3d11_read_staging_dst]
  simp only [Option.getD_some]
  exact staging_read_after_update texMem src dst tp sp w (GetTexelSize fmt)
    hgt sz hps hw htp hsp hsz j hj

/-- The texture produced by a fully successful D3D9 writeTexture whose
staging lock reports pitch equal to the row byte count. -/
theorem d3d9WriteTexture_tex (texMem stale src : Mem) (tp w hgt sz : Nat)
    (fmt : TextureFormat) (cache : List Nat)
    (hfmt : GetInternalFormatD3D9 fmt ≠ 0) :
    (d3d9WriteTexture (some ⟨texMem, tp, false, false⟩) w hgt fmt (some src)
        sz cache
        ⟨true, true, true, true, true, w * GetTexelSize fmt, stale, tp⟩).tex
      = some ⟨copyResourceTex
          (if fmt = TextureFormat.RGBAu8 then
            copyWithBgraRgbaConversion stale src (sz / 4)
          else memcpy stale src 0 0 sz)
          (w * GetTexelSize fmt) tp (GetTexelSize fmt * w), tp, false,
          false⟩ := by
  have hex := d3d9Staging_exists cache w hgt fmt hfmt
  simp only [d3d9WriteTexture, hex, Bool.not_true, if_true]
  rfl

/-- The destination buffer produced by a fully successful D3D9 readTexture
whose staging lock reports pitch equal to the row byte count. -/
theorem d3d9ReadTexture_dst (M dst stale2 : Mem) (tp w hgt sz : Nat)
    (fmt : TextureFormat) (cache2 : List Nat)
    (hfmt : GetInternalFormatD3D9 fmt ≠ 0) :
    (d3d9ReadTexture (some dst) sz (some ⟨M, tp, false, false⟩) w hgt fmt
        cache2
        ⟨true, true, true, true, true, w * GetTexelSize fmt, stale2, tp⟩).dst
      = some (if fmt = TextureFormat.RGBAu8 then
          bgraRgbaConversion
            (pitchCopy dst
              (copyResourceTex M tp (w * GetTexelSize fmt)
                (w * GetTexelSize fmt))
              (w * GetTexelSize fmt) (w * GetTexelSize fmt) sz hgt)
            (sz / 4)
        else
          pitchCopy dst
            (copyResourceTex M tp (w * GetTexelSize fmt)
              (w * GetTexelSize fmt))
            (w * GetTexelSize fmt) (w * GetTexelSize fmt) sz hgt) := by
  have hex := d3d9Staging_exists cache2 w hgt fmt hfmt
  simp only [d3d9ReadTexture, hex, Bool.not_true, if_true]
  rfl

/-- Operation-level round trip on the D3D9 path (write through staging with
UpdateSurface, read back through staging with GetRenderTargetData), including
the red/blue double swap for RGBAu8. -/
theorem d3d9_roundtrip (texMem stale stale2 dst src : Mem)
    (tp w hgt sz : Nat) (fmt : TextureFormat) (cache cache2 : List Nat)
    (hfmt : GetInternalFormatD3D9 fmt ≠ 0) (hps : 0 < GetTexelSize fmt)
    (hw : 0 < w) (htp : w * GetTexelSize fmt ≤ tp)
    (hsz : sz = w * hgt * GetTexelSize fmt) :
    ∀ j < sz,
      ((d3d9ReadTexture (some dst) sz
          (d3d9WriteTexture (some ⟨texMem, tp, false, false⟩) w hgt fmt
            (some src) sz cache
            ⟨true, true, true, true, true, w * GetTexelSize fmt, stale,
              tp⟩).tex
          w hgt fmt cache2
          ⟨true, true, true, true, true, w * GetTexelSize fmt, stale2,
            tp⟩).dst.getD memZero) j = src j := by
  intro j hj
  rw [d3d9WriteTexture_tex texMem stale src tp w hgt sz fmt cache hfmt]
  rw [Nat.mul_comm (GetTexelSize fmt) w]
  rw [d3d9ReadTexture_dst _ dst stale2 tp w hgt sz fmt cache2 hfmt]
  simp only [Option.getD_some]
  have hrb : 0 < w * GetTexelSize fmt := Nat.mul_pos hw hps
  by_cases hf : fmt = TextureFormat.RGBAu8
  · rw [if_pos hf, if_pos hf]
    have hps4 : GetTexelSize fmt = 4 := by rw [hf]; rfl
    obtain ⟨q, r, rfl, hrlt, hqlt⟩ :
        ∃ q r, j = 4 * q + r ∧ r < 4 ∧ q < sz / 4 := by
      have hsz4 : sz % 4 = 0 := by
        rw [hsz, hps4]
        exact Nat.mul_mod_left _ _
      exact ⟨j / 4, j % 4, by omega, by omega, by omega⟩
    rw [bgraRgbaConversion_get _ _ _ _ hqlt hrlt]
    have hidx : 4 * q + swapRBIdx r < sz := by
      have hs := swapRBIdx_lt r hrlt
      have hsz4 : sz % 4 = 0 := by
        rw [hsz, hps4]
        exact Nat.mul_mod_left _ _
      omega
    rw [pitchCopy_self, memcpy_get _ _ _ _ hidx]
    rw [d3d9_transport _ _ _ hrb htp]
    rw [copyWithBgra_get _ _ _ _ _ hqlt (swapRBIdx_lt r hrlt)]
    rw [swapRBIdx_invol r hrlt]
  · rw [if_neg hf, if_neg hf]
    rw [pitchCopy_self, memcpy_get _ _ _ _ hj]
    rw [d3d9_transport _ _ _ hrb htp]
    rw [memcpy_get _ _ _ _ hj]

/-- C1: for every supported format (positive texel size) and matching buffer
size, writeTexture followed by readTexture on the same resource returns the
original bytes exactly — on the D3D11 directly-mappable path, on the D3D11
staging path (UpdateSubresource write, CopyResource-staged read), and on the
D3D9 staging path (including the RGBAu8 double channel swap) — under the
driver-layout assumptions that reported pitches are at least the row byte
count and that the D3D9 staging lock pitch equals the row byte count. -/
theorem c1_writeTexture_readTexture_roundtrip :
    (∀ (texMem stale stale2 dst src : Mem) (p w hgt sz : Nat)
        (fmt : TextureFormat) (cache : List Nat) (cOk cOk2 : Bool)
        (sp sp2 : Nat),
      0 < GetTexelSize fmt → 0 < w → w * GetTexelSize fmt ≤ p →
      sz = w * hgt * GetTexelSize fmt →
      ∀ j < sz,
        ((d3d11ReadTexture false (some dst) sz
            (d3d11WriteTexture (some ⟨texMem, p, true, true⟩) w hgt fmt
              (some src) sz ⟨true, stale, cOk, sp⟩).tex
            w hgt fmt cache ⟨true, stale2, cOk2, sp2⟩).dst.getD memZero) j
          = src j) ∧
    (∀ (texMem stale stale2 dst src : Mem) (tp sp sp1 w hgt sz : Nat)
        (fmt : TextureFormat) (cache : List Nat) (mOk cOkW : Bool),
      0 < GetTexelSize fmt → 0 < w → w * GetTexelSize fmt ≤ tp →
      w * GetTexelSize fmt ≤ sp → sz = w * hgt * GetTexelSize fmt →
      ∀ j < sz,
        ((d3d11ReadTexture false (some dst) sz
            (d3d11WriteTexture (some ⟨texMem, tp, false, false⟩) w hgt fmt
              (some src) sz ⟨mOk, stale, cOkW, sp1⟩).tex
            w hgt fmt cache ⟨true, stale2, true, sp⟩).dst.getD memZero) j
          = src j) ∧
    (∀ (texMem stale stale2 dst src : Mem) (tp w hgt sz : Nat)
        (fmt : TextureFormat) (cache cache2 : List Nat),
      GetInternalFormatD3D9 fmt ≠ 0 → 0 < GetTexelSize fmt → 0 < w →
      w * GetTexelSize fmt ≤ tp → sz = w * hgt * GetTexelSize fmt →
      ∀ j < sz,
        ((d3d9ReadTexture (some dst) sz
            (d3d9WriteTexture (some ⟨texMem, tp, false, false⟩) w hgt fmt
              (some src) sz cache
              ⟨true, true, true, true, true, w * GetTexelSize fmt, stale,
                tp⟩).tex
            w hgt fmt cache2
            ⟨true, true, true, true, true, w * GetTexelSize fmt, stale2,
              tp⟩).dst.getD memZero) j = src j) :=
  ⟨d3d11_mappable_roundtrip, d3d11_staging_roundtrip, d3d9_roundtrip⟩

/-- C1 witness: the three round trips applied at a concrete 1x1 RGBAu8
texture with source bytes 1,2,3,4. -/
theorem c1_writeTexture_readTexture_roundtrip_witness :
    (0 < GetTexelSize TextureFormat.RGBAu8) ∧
    ((4 : Nat) = 1 * 1 * GetTexelSize TextureFormat.RGBAu8) ∧
    (GetInternalFormatD3D9 TextureFormat.RGBAu8 ≠ 0) ∧
    (∀ j < 4,
      ((d3d11ReadTexture false (some memZero) 4
          (d3d11WriteTexture (some ⟨memZero, 4, true, true⟩) 1 1
            TextureFormat.RGBAu8 (some (fun i => i + 1)) 4
            ⟨true, memZero, true, 4⟩).tex
          1 1 TextureFormat.RGBAu8 [] ⟨true, memZero, true, 4⟩).dst.getD
        memZero) j = (fun i => i + 1) j) ∧
    (∀ j < 4,
      ((d3d11ReadTexture false (some memZero) 4
          (d3d11WriteTexture (some ⟨memZero, 4, false, false⟩) 1 1
            TextureFormat.RGBAu8 (some (fun i => i + 1)) 4
            ⟨true, memZero, true, 4⟩).tex
          1 1 TextureFormat.RGBAu8 [] ⟨true, memZero, true, 4⟩).dst.getD
        memZero) j = (fun i => i + 1) j) ∧
    (∀ j < 4,
      ((d3d9ReadTexture (some memZero) 4
          (d3d9WriteTexture (some ⟨memZero, 4, false, false⟩) 1 1
            TextureFormat.RGBAu8 (some (fun i => i + 1)) 4 []
            ⟨true, true, true, true, true, 1 * GetTexelSize
              TextureFormat.RGBAu8, memZero, 4⟩).tex
          1 1 TextureFormat.RGBAu8 []
          ⟨true, true, true, true, true, 1 * GetTexelSize
            TextureFormat.RGBAu8, memZero, 4⟩).dst.getD memZero) j
        = (fun i => i + 1) j) := by
  refine ⟨by decide, by decide, by decide, ?_, ?_, ?_⟩
  · exact c1_writeTexture_readTexture_roundtrip.1 memZero memZero memZero
      memZero (fun i => i + 1) 4 1 1 4 TextureFormat.RGBAu8 [] true true 4 4
      (by decide) (by decide) (by decide) (by decide)
  · exact c1_writeTexture_readTexture_roundtrip.2.1 memZero memZero memZero
      memZero (fun i => i + 1) 4 4 4 1 1 4 TextureFormat.RGBAu8 [] true true
      (by decide) (by decide) (by decide) (by decide) (by decide)
  · exact c1_writeTexture_readTexture_roundtrip.2.2 memZero memZero memZero
      memZero (fun i => i + 1) 4 1 1 4 TextureFormat.RGBAu8 [] []
      (by decide) (by decide) (by decide) (by decide) (by decide)

/-- C8: the D3D9 RGBAu8 conversions — the in-place read-side conversion swaps
red and blue of every converted texel, the write-side converting copy applies
the inverse exchange while copying, the two permutations compose to the
identity on every texel, and at the operation level a successful D3D9
readTexture returns the texture's bytes with red/blue exchanged while a
successful D3D9 writeTexture stores the caller's bytes with red/blue
exchanged. -/
theorem c8_d3d9_rgba_channel_swap :
    (∀ (m : Mem) (n : Nat), ∀ q r, q < n → r < 4 →
      bgraRgbaConversion m n (4 * q + r) = m (4 * q + swapRBIdx r)) ∧
    (∀ (dst src : Mem) (n : Nat), ∀ q r, q < n → r < 4 →
      copyWithBgraRgbaConversion dst src n (4 * q + r)
        = src (4 * q + swapRBIdx r)) ∧
    (∀ (m : Mem) (n : Nat), ∀ q r, q < n → r < 4 →
      bgraRgbaConversion (bgraRgbaConversion m n) n (4 * q + r)
        = m (4 * q + r)) ∧
    (∀ (texMem stale2 dst : Mem) (tp w hgt sz : Nat) (cache2 : List Nat),
      0 < w → sz = w * hgt * 4 →
      ∀ q r, q < w * hgt → r < 4 →
        ((d3d9ReadTexture (some dst) sz (some ⟨texMem, tp, false, false⟩) w
            hgt TextureFormat.RGBAu8 cache2
            ⟨true, true, true, true, true, w * 4, stale2, tp⟩).dst.getD
          memZero) (4 * q + r)
        = gatherRows texMem (w * 4) tp (4 * q + swapRBIdx r)) ∧
    (∀ (texMem stale src : Mem) (tp w hgt sz : Nat) (cache : List Nat),
      0 < w → w * 4 ≤ tp → sz = w * hgt * 4 →
      ∀ q r, q < w * hgt → r < 4 →
        gatherRows
          (((d3d9WriteTexture (some ⟨texMem, tp, false, false⟩) w hgt
              TextureFormat.RGBAu8 (some src) sz cache
              ⟨true, true, true, true, true, w * 4, stale, tp⟩).tex.getD
            texGpu).mem)
          (w * 4) tp (4 * q + r) = src (4 * q + swapRBIdx r)) := by
  refine ⟨bgraRgbaConversion_get, copyWithBgra_get, ?_, ?_, ?_⟩
  · intro m n q r hq hr
    rw [bgraRgbaConversion_get _ _ _ _ hq hr,
      bgraRgbaConversion_get _ _ _ _ hq (swapRBIdx_lt r hr),
      swapRBIdx_invol r hr]
  · intro texMem stale2 dst tp w hgt sz cache2 hw hsz q r hq hr
    have hlem := d3d9ReadTexture_dst texMem dst stale2 tp w hgt sz
      TextureFormat.RGBAu8 cache2 (by decide)
    rw [show GetTexelSize TextureFormat.RGBAu8 = 4 from rfl] at hlem
    rw [if_pos rfl] at hlem
    rw [hlem]
    simp only [Option.getD_some]
    have hszdiv : sz / 4 = w * hgt := by
      rw [hsz]
      exact Nat.mul_div_cancel _ (by norm_num)
    have hq4 : q < sz / 4 := by rw [hszdiv]; exact hq
    rw [bgraRgbaConversion_get _ _ _ _ hq4 hr]
    have hrb : 0 < w * 4 := by omega
    have hidx : 4 * q + swapRBIdx r < sz := by
      have hs := swapRBIdx_lt r hr
      have hm : sz % 4 = 0 := by rw [hsz]; exact Nat.mul_mod_left _ _
      omega
    rw [pitchCopy_self, memcpy_get _ _ _ _ hidx]
    rw [copyResourceTex_eq_gather _ _ _ hrb]
  · intro texMem stale src tp w hgt sz cache hw htp hsz q r hq hr
    have hlem := d3d9WriteTexture_tex texMem stale src tp w hgt sz
      TextureFormat.RGBAu8 cache (by decide)
    rw [show GetTexelSize TextureFormat.RGBAu8 = 4 from rfl] at hlem
    rw [if_pos rfl] at hlem
    rw [Nat.mul_comm 4 w] at hlem
    rw [hlem]
    simp only [Option.getD_some]
    have hrb : 0 < w * 4 := by omega
    rw [← copyResourceTex_eq_gather _ _ _ hrb]
    rw [d3d9_transport _ _ _ hrb htp]
    have hszdiv : sz / 4 = w * hgt := by
      rw [hsz]
      exact Nat.mul_div_cancel _ (by norm_num)
    have hq4 : q < sz / 4 := by rw [hszdiv]; exact hq
    rw [copyWithBgra_get _ _ _ _ _ hq4 hr]

/-- C8 witness: the conversion properties and both operation-level swap facts
applied at a concrete 1x1 RGBAu8 texture. -/
theorem c8_d3d9_rgba_channel_swap_witness :
    ((0 : Nat) < 1) ∧ ((0 : Nat) < 4) ∧
    (bgraRgbaConversion (bgraRgbaConversion (fun i => i + 5) 1) 1 (4 * 0 + 0)
      = (fun i => i + 5) (4 * 0 + 0)) ∧
    (((d3d9ReadTexture (some memZero) 4
        (some ⟨(fun i => i + 5), 4, false, false⟩) 1 1 TextureFormat.RGBAu8 []
        ⟨true, true, true, true, true, 1 * 4, memZero, 4⟩).dst.getD memZero)
      (4 * 0 + 0) = gatherRows (fun i => i + 5) (1 * 4) 4 (4 * 0 + swapRBIdx 0)) ∧
    (gatherRows
      (((d3d9WriteTexture (some ⟨memZero, 4, false, false⟩) 1 1
          TextureFormat.RGBAu8 (some (fun i => i + 5)) 4 []
          ⟨true, true, true, true, true, 1 * 4, memZero, 4⟩).tex.getD
        texGpu).mem)
      (1 * 4) 4 (4 * 0 + 0) = (fun i => i + 5) (4 * 0 + swapRBIdx 0)) := by
  refine ⟨by decide, by decide, ?_, ?_, ?_⟩
  · exact c8_d3d9_rgba_channel_swap.2.2.1 (fun i => i + 5) 1 0 0 (by decide)
      (by decide)
  · exact c8_d3d9_rgba_channel_swap.2.2.2.1 (fun i => i + 5) memZero memZero
      4 1 1 4 [] (by decide) (by decide) 0 0 (by decide) (by decide)
  · exact c8_d3d9_rgba_channel_swap.2.2.2.2 memZero memZero (fun i => i + 5)
      4 1 1 4 [] (by decide) (by decide) (by decide) 0 0 (by decide)
      (by decide)

end gd
